import Mathlib

/-!
Shallow embedding of the table-comparison engine of the data-integrity app.

The embedding follows `src/comparison.py` (the functions `compare_files` and
`compare_sheets`) and the value-difference rendering stage of
`src/highlighting.py`.  Tables model pandas DataFrames: an ordered list of
column names and an ordered list of rows, each row a list of cells aligned
with the column list.  A cell is either a missing value (pandas `NaN`) or a
scalar already rendered in its canonical string form (stringification of
scalars happens at the ingestion boundary and is outside the comparator).

Python sets have an unspecified iteration order; wherever the source iterates
over a set (`common_cols`, `common_keys`, sheet-name sets, `list(set(...))`),
the embedding fixes the deterministic stand-in order of first appearance in
the first operand.  All theorems below either do not depend on that order or
quantify over data where the order is irrelevant.

Report lines (`detailed_report` / `summary_report`) are modelled as lists of
`ReportItem` values, one constructor per f-string template of the source,
carrying exactly the data interpolated into that template.
-/

set_option linter.unusedVariables false

/-- A cell of a table: a missing value (pandas `NaN`) or a scalar rendered in
its canonical string form. -/
inductive Cell where
  | missing
  | val (s : String)
deriving DecidableEq

/-- One table (a pandas DataFrame): ordered column names and ordered rows. -/
structure Table where
  columns : List String
  rows : List (List Cell)
deriving DecidableEq

/-- Python `str(x)` / `Series.astype(str)`: a missing value (float `NaN`)
renders as the lowercase string `"nan"`; other cells render as themselves.
Used by the positional comparison (comparison.py lines 321-331) and by key
construction (lines 222, 229). -/
def strRaw : Cell → String
  | .missing => "nan"
  | .val s => s

/-- The keyed-mode normalization of comparison.py lines 267-268:
`str(x) if pd.notna(x) else "NaN"`. -/
def strNotna : Cell → String
  | .missing => "NaN"
  | .val s => s

/-- Access `row[col]` in a row aligned with `cols`; a column absent from the
row degrades to a missing value (the spec's MalformedRow rule). -/
def rowGet (cols : List String) (row : List Cell) (c : String) : Cell :=
  match cols.findIdx? (· == c) with
  | some i => row.getD i Cell.missing
  | none => Cell.missing

/-- The cell of table `t` at row position `r`, column `c` (`df.loc[idx, col]`
with the default range index). -/
def cellAt (t : Table) (r : Nat) (c : String) : Cell :=
  rowGet t.columns (t.rows.getD r []) c

/-- Columns of `df1` absent from `df2` (comparison.py line 171), in first-table
order. -/
def missingColsList (df1 df2 : Table) : List String :=
  df1.columns.filter (fun c => !df2.columns.contains c)

/-- Columns of `df2` absent from `df1` (comparison.py line 172). -/
def extraColsList (df1 df2 : Table) : List String :=
  df2.columns.filter (fun c => !df1.columns.contains c)

/-- Columns common to both tables (comparison.py line 173), iterated in
first-table order. -/
def commonColsList (df1 df2 : Table) : List String :=
  df1.columns.filter (fun c => df2.columns.contains c)

/-- Reordered columns per comparison.py lines 189-190: when the full column
lists differ, a common column is flagged when its first index in `df1`'s full
column list differs from its first index in `df2`'s full column list
(`list(df.columns).index(col)` is an absolute position, not a position within
the common subsequence). -/
def reorderedColsList (df1 df2 : Table) : List String :=
  if df1.columns = df2.columns then []
  else
    df1.columns.filter (fun c =>
      df2.columns.contains c &&
        (df1.columns.findIdx (· == c) != df2.columns.findIdx (· == c)))

/-- The signed row-count difference `len(df1) - len(df2)` (comparison.py
line 198). -/
def rowCountDiff (df1 df2 : Table) : Int :=
  (df1.rows.length : Int) - (df2.rows.length : Int)

/-- Locator of a value difference: a key descriptor (keyed mode,
`dict(zip(key_columns, key))`) or a row position (positional mode). -/
inductive RowLocator where
  | key (kv : List (String × String))
  | idx (r : Nat)
deriving DecidableEq

/-- One value-difference record of `error_details["value_differences"]`. -/
structure ValueDiff where
  locator : RowLocator
  column : String
  value1 : String
  value2 : String
deriving DecidableEq

/-- The `error_details["column_differences"]` sub-dictionary. -/
structure ColumnDifferences where
  missing_columns : List String
  extra_columns : List String
  reordered_columns : List String
deriving DecidableEq

/-- The `error_details["row_differences"]` sub-dictionary. -/
structure RowDifferences where
  count_diff : Int
  missing_rows : List (List (String × String))
  extra_rows : List (List (String × String))
deriving DecidableEq

/-- Per-sheet `error_details` as initialized in comparison.py lines 147-159. -/
structure ErrorDetails where
  column_differences : ColumnDifferences
  row_differences : RowDifferences
  value_differences : List ValueDiff
deriving DecidableEq

def emptyColumnDifferences : ColumnDifferences := ⟨[], [], []⟩

def emptyRowDifferences : RowDifferences := ⟨0, [], []⟩

def emptyErrorDetails : ErrorDetails :=
  ⟨emptyColumnDifferences, emptyRowDifferences, []⟩

/-- One line of `detailed_report` or `summary_report`: one constructor per
f-string template of the source, carrying the interpolated data. -/
inductive ReportItem where
  | fileTypesDiffer (t1 t2 : String)
  | sheetMissingDetail (name : String)
  | sheetMissingSummary (name : String)
  | sheetExtraDetail (name : String)
  | sheetExtraSummary (name : String)
  | missingColumnsDetail (cols : List String)
  | missingColumnsCount (n : Nat)
  | extraColumnsDetail (cols : List String)
  | extraColumnsCount (n : Nat)
  | reorderedColumnsDetail (cols : List String)
  | reorderedColumnsCount (n : Nat)
  | rowCountDiffDetail (d : Int) (n1 n2 : Nat)
  | rowCountDiffAbs (n : Nat)
  | missingRowsDetail (n : Nat)
  | missingRowsCount (n : Nat)
  | extraRowsDetail (n : Nat)
  | extraRowsCount (n : Nat)
  | valueDifferences (n : Nat)
  | keyColumnsNotFound (cols : List String)
  | keyColumnsMissingSummary
deriving DecidableEq

/-- Result of one `compare_sheets` call: the two report lists and the
`error_details` dictionary. -/
structure SheetResult where
  detailed : List ReportItem
  summary : List ReportItem
  errors : ErrorDetails
deriving DecidableEq

/-- Python dict assignment `d[k] = v`: an existing key keeps its position and
receives the new value (last-write-wins); a new key is appended. -/
def dictInsert {K V : Type} [BEq K] (d : List (K × V)) (k : K) (v : V) :
    List (K × V) :=
  if d.any (fun p => p.1 == k) then
    d.map (fun p => if p.1 == k then (k, v) else p)
  else d ++ [(k, v)]

/-- The key lookup dictionary of comparison.py lines 219-230: for each row, the
key is `tuple(str(row[col]) for col in key_columns)` and later rows overwrite
earlier ones. -/
def buildKeyDict (t : Table) (kc : List String) :
    List (List String × List Cell) :=
  t.rows.foldl
    (fun d row => dictInsert d (kc.map (fun c => strRaw (rowGet t.columns row c))) row)
    []

def dictKeys {K V : Type} (d : List (K × V)) : List K := d.map (·.1)

def dictLookup (d : List (List String × List Cell)) (k : List String) :
    List Cell :=
  (List.lookup k d).getD []

/-- Keys present in both key dictionaries (comparison.py line 233), in
first-dictionary order. -/
def keyedCommonKeys (df1 df2 : Table) (kc : List String) : List (List String) :=
  (dictKeys (buildKeyDict df1 kc)).filter
    (fun k => (dictKeys (buildKeyDict df2 kc)).contains k)

/-- Keys of `df1` absent from `df2` (comparison.py line 234). -/
def keyedMissingKeys (df1 df2 : Table) (kc : List String) : List (List String) :=
  (dictKeys (buildKeyDict df1 kc)).filter
    (fun k => !(dictKeys (buildKeyDict df2 kc)).contains k)

/-- Keys of `df2` absent from `df1` (comparison.py line 235). -/
def keyedExtraKeys (df1 df2 : Table) (kc : List String) : List (List String) :=
  (dictKeys (buildKeyDict df2 kc)).filter
    (fun k => !(dictKeys (buildKeyDict df1 kc)).contains k)

/-- The key columns missing from one of the tables (comparison.py line 297). -/
def missingKeyColsList (df1 df2 : Table) (kc : List String) : List String :=
  kc.filter (fun c => !df1.columns.contains c || !df2.columns.contains c)

/-- Value differences emitted for one common key (comparison.py lines 261-278):
for each common column, compare the keyed normalizations of the two stored
rows and record a difference on mismatch. -/
def keyedDiffForKey (df1 df2 : Table) (kc : List String) (key : List String) :
    List ValueDiff :=
  (commonColsList df1 df2).filterMap (fun c =>
    let v1 := strNotna (rowGet df1.columns (dictLookup (buildKeyDict df1 kc) key) c)
    let v2 := strNotna (rowGet df2.columns (dictLookup (buildKeyDict df2 kc) key) c)
    if v1 ≠ v2 then some ⟨.key (kc.zip key), c, v1, v2⟩ else none)

/-- Worker for `chunksOf`, structurally recursive on a fuel bound (any fuel
at least the list length yields the same chunks, see `chunksOfAux_flatten`). -/
def chunksOfAux {α : Type} (cs : Nat) : Nat → List α → List (List α)
  | 0, _ => []
  | Nat.succ fuel, l =>
    if l.isEmpty then [] else l.take cs :: chunksOfAux cs fuel (l.drop cs)

/-- Slicing a list into consecutive chunks of size `cs`, mirroring
`for i in range(0, len(l), chunk_size): l[i:i+chunk_size]`. -/
def chunksOf {α : Type} (cs : Nat) (l : List α) : List (List α) :=
  if cs = 0 then [] else chunksOfAux cs l.length l

/-- Keyed value differences with chunked processing (comparison.py lines
253-289): the common keys are processed in slices of `chunk_size` and the
per-chunk difference lists are concatenated. -/
def keyedValueDiffs (df1 df2 : Table) (kc : List String) (cs : Nat) :
    List ValueDiff :=
  (chunksOf cs (keyedCommonKeys df1 df2 kc)).flatMap
    (fun chunk => chunk.flatMap (keyedDiffForKey df1 df2 kc))

/-- The chunk-free form of the keyed value differences. -/
def keyedCanonicalDiffs (df1 df2 : Table) (kc : List String) : List ValueDiff :=
  (keyedCommonKeys df1 df2 kc).flatMap (keyedDiffForKey df1 df2 kc)

/-- The positional comparison of one cell (comparison.py lines 319-338): plain
string forms are compared and a record keyed by row position is emitted on
mismatch. -/
def posDiffAt (df1 df2 : Table) (c : String) (r : Nat) : Option ValueDiff :=
  let v1 := strRaw (cellAt df1 r c)
  let v2 := strRaw (cellAt df2 r c)
  if v1 ≠ v2 then some ⟨.idx r, c, v1, v2⟩ else none

/-- The number of positionally compared rows, `min(len(df1), len(df2))`
(comparison.py line 306). -/
def minRows (df1 df2 : Table) : Nat :=
  min df1.rows.length df2.rows.length

/-- Positional value differences with chunked processing (comparison.py lines
309-346): within each chunk of row positions the columns are iterated in the
outer loop and the differing rows in the inner loop. -/
def posValueDiffs (df1 df2 : Table) (cs : Nat) : List ValueDiff :=
  (chunksOf cs (List.range (minRows df1 df2))).flatMap (fun chunk =>
    (commonColsList df1 df2).flatMap (fun c => chunk.filterMap (posDiffAt df1 df2 c)))

/-- The chunk-free, row-major form of the positional value differences. -/
def posCanonicalDiffs (df1 df2 : Table) : List ValueDiff :=
  (List.range (minRows df1 df2)).flatMap (fun r =>
    (commonColsList df1 df2).filterMap (fun c => posDiffAt df1 df2 c r))

/-- The detailed-report lines for column and row-count differences
(comparison.py lines 176-203), each emitted only when its category is
non-empty. -/
def columnDetailItems (df1 df2 : Table) : List ReportItem :=
  (if (missingColsList df1 df2).isEmpty then []
   else [.missingColumnsDetail (missingColsList df1 df2)]) ++
  (if (extraColsList df1 df2).isEmpty then []
   else [.extraColumnsDetail (extraColsList df1 df2)]) ++
  (if (reorderedColsList df1 df2).isEmpty then []
   else [.reorderedColumnsDetail (reorderedColsList df1 df2)]) ++
  (if rowCountDiff df1 df2 = 0 then []
   else [.rowCountDiffDetail (rowCountDiff df1 df2) df1.rows.length df2.rows.length])

/-- The summary-report lines for column and row-count differences
(comparison.py lines 176-203). -/
def columnSummaryItems (df1 df2 : Table) : List ReportItem :=
  (if (missingColsList df1 df2).isEmpty then []
   else [.missingColumnsCount (missingColsList df1 df2).length]) ++
  (if (extraColsList df1 df2).isEmpty then []
   else [.extraColumnsCount (extraColsList df1 df2).length]) ++
  (if (reorderedColsList df1 df2).isEmpty then []
   else [.reorderedColumnsCount (reorderedColsList df1 df2).length]) ++
  (if rowCountDiff df1 df2 = 0 then []
   else [.rowCountDiffAbs (rowCountDiff df1 df2).natAbs])

/-- The `error_details["column_differences"]` value of a non-fast-path run. -/
def columnDiffsOf (df1 df2 : Table) : ColumnDifferences :=
  ⟨missingColsList df1 df2, extraColsList df1 df2, reorderedColsList df1 df2⟩

/-- The result of the positional branch (comparison.py lines 301-360). -/
def posSheetResult (df1 df2 : Table) (cs : Nat) : SheetResult :=
  { detailed := columnDetailItems df1 df2 ++
      (if (posValueDiffs df1 df2 cs).isEmpty then []
       else [.valueDifferences (posValueDiffs df1 df2 cs).length])
    summary := columnSummaryItems df1 df2 ++
      (if (posValueDiffs df1 df2 cs).isEmpty then []
       else [.valueDifferences (posValueDiffs df1 df2 cs).length])
    errors := ⟨columnDiffsOf df1 df2, ⟨rowCountDiff df1 df2, [], []⟩,
      posValueDiffs df1 df2 cs⟩ }

/-- The result of the keyed branch when all key columns are present
(comparison.py lines 215-295): missing/extra key lists are truncated to 100
entries in `error_details` while the report lines carry the full counts. -/
def keyedSheetResult (df1 df2 : Table) (kc : List String) (cs : Nat) :
    SheetResult :=
  { detailed := columnDetailItems df1 df2 ++
      (if (keyedMissingKeys df1 df2 kc).isEmpty then []
       else [.missingRowsDetail (keyedMissingKeys df1 df2 kc).length]) ++
      (if (keyedExtraKeys df1 df2 kc).isEmpty then []
       else [.extraRowsDetail (keyedExtraKeys df1 df2 kc).length]) ++
      (if (keyedValueDiffs df1 df2 kc cs).isEmpty then []
       else [.valueDifferences (keyedValueDiffs df1 df2 kc cs).length])
    summary := columnSummaryItems df1 df2 ++
      (if (keyedMissingKeys df1 df2 kc).isEmpty then []
       else [.missingRowsCount (keyedMissingKeys df1 df2 kc).length]) ++
      (if (keyedExtraKeys df1 df2 kc).isEmpty then []
       else [.extraRowsCount (keyedExtraKeys df1 df2 kc).length]) ++
      (if (keyedValueDiffs df1 df2 kc cs).isEmpty then []
       else [.valueDifferences (keyedValueDiffs df1 df2 kc cs).length])
    errors := ⟨columnDiffsOf df1 df2,
      ⟨rowCountDiff df1 df2,
        ((keyedMissingKeys df1 df2 kc).take 100).map (fun k => kc.zip k),
        ((keyedExtraKeys df1 df2 kc).take 100).map (fun k => kc.zip k)⟩,
      keyedValueDiffs df1 df2 kc cs⟩ }

/-- The result of the keyed branch when some key column is absent from one of
the tables (comparison.py lines 296-300): no row or value comparison is
attempted. -/
def keyErrorSheetResult (df1 df2 : Table) (kc : List String) : SheetResult :=
  { detailed := columnDetailItems df1 df2 ++
      [.keyColumnsNotFound (missingKeyColsList df1 df2 kc)]
    summary := columnSummaryItems df1 df2 ++ [.keyColumnsMissingSummary]
    errors := ⟨columnDiffsOf df1 df2, ⟨rowCountDiff df1 df2, [], []⟩, []⟩ }

/-- The comparison engine `compare_sheets(df1, df2, key_columns, chunk_size)`
of comparison.py lines 124-362: the `df1.equals(df2)` fast path (line 162)
returns the empty result; Python list truthiness makes an empty `key_columns`
list select the positional branch, like `None` (line 209). -/
def compare_sheets (df1 df2 : Table) (key_columns : Option (List String))
    (chunk_size : Nat) : SheetResult :=
  if df1 = df2 then ⟨[], [], emptyErrorDetails⟩
  else
    match key_columns with
    | none => posSheetResult df1 df2 chunk_size
    | some kc =>
      if kc.isEmpty then posSheetResult df1 df2 chunk_size
      else if kc.all (fun c => df1.columns.contains c) &&
              kc.all (fun c => df2.columns.contains c) then
        keyedSheetResult df1 df2 kc chunk_size
      else keyErrorSheetResult df1 df2 kc

/-- A top-level input of `compare_files`: the `"excel"` shape (ordered sheet
names plus a dictionary of tables) or the `"csv"` shape (one table). -/
inductive FileData where
  | excel (sheet_names : List String) (data : List (String × Table))
  | csv (data : Table)
deriving DecidableEq

/-- The `data["type"]` tag assigned by file_handler.py lines 29 and 81. -/
def FileData.ftype : FileData → String
  | .excel _ _ => "excel"
  | .csv _ => "csv"

/-- The top-level `error_details` dictionary of comparison.py lines 19-25,
with per-sheet sub-dictionaries as insertion-ordered association lists. -/
structure FileErrorDetails where
  missing_sheets : List String
  extra_sheets : List String
  column_differences : List (String × ColumnDifferences)
  row_differences : List (String × RowDifferences)
  value_differences : List (String × List ValueDiff)
deriving DecidableEq

def emptyFileErrorDetails : FileErrorDetails := ⟨[], [], [], [], []⟩

/-- Result of one `compare_files` call. -/
structure FileResult where
  detailed : List ReportItem
  summary : List ReportItem
  errors : FileErrorDetails
deriving DecidableEq

/-- Merging one sheet's result into the running totals (comparison.py lines
79-94).  The guard `any(sheet_error_details.values())` and the guards on the
two sub-dictionaries are always true in Python (a dictionary with fixed keys
is truthy even when its lists are empty), so the reports are always extended
and the column/row entries always recorded; only the `value_differences`
entry is conditional on a non-empty list. -/
def mergeSheetResult (acc : FileResult) (sheet : String) (r : SheetResult) :
    FileResult :=
  { detailed := acc.detailed ++ r.detailed
    summary := acc.summary ++ r.summary
    errors := { acc.errors with
      column_differences :=
        acc.errors.column_differences ++ [(sheet, r.errors.column_differences)]
      row_differences :=
        acc.errors.row_differences ++ [(sheet, r.errors.row_differences)]
      value_differences := acc.errors.value_differences ++
        (if r.errors.value_differences.isEmpty then []
         else [(sheet, r.errors.value_differences)]) } }

/-- Processing of one common sheet inside `compare_files` (comparison.py lines
62-99): a sheet missing from a data dictionary is skipped with an error
message; otherwise the sheet pair is compared with the default
`key_columns=None` and `chunk_size=10000` and merged. -/
def compareFilesSheetStep (sheets1 sheets2 : List (String × Table))
    (acc : FileResult) (sheet : String) : FileResult :=
  match List.lookup sheet sheets1, List.lookup sheet sheets2 with
  | some t1, some t2 => mergeSheetResult acc sheet (compare_sheets t1 t2 none 10000)
  | _, _ => acc

/-- The sheet-name reports and sheet-level error entries of the Excel branch
(comparison.py lines 34-53), before any common sheet is compared. -/
def excelBaseResult (names1 names2 : List String) : FileResult :=
  { detailed := (names1.filter (fun s => !names2.contains s)).map
      ReportItem.sheetMissingDetail ++
      (names2.filter (fun s => !names1.contains s)).map ReportItem.sheetExtraDetail
    summary := (names1.filter (fun s => !names2.contains s)).map
      ReportItem.sheetMissingSummary ++
      (names2.filter (fun s => !names1.contains s)).map ReportItem.sheetExtraSummary
    errors := { emptyFileErrorDetails with
      missing_sheets := names1.filter (fun s => !names2.contains s)
      extra_sheets := names2.filter (fun s => !names1.contains s) } }

/-- The Excel branch of `compare_files` (comparison.py lines 34-99): sheet-name
set differences, then each common sheet compared and merged. -/
def compareExcelFiles (names1 names2 : List String)
    (sheets1 sheets2 : List (String × Table)) : FileResult :=
  (names1.filter (fun s => names2.contains s)).foldl
    (compareFilesSheetStep sheets1 sheets2) (excelBaseResult names1 names2)

/-- The CSV branch of `compare_files` (comparison.py lines 102-118): one
comparison stored under the key `"data"`.  The guards on the two
sub-dictionaries are always true in Python, so the column and row entries are
always recorded. -/
def compareCsvFiles (t1 t2 : Table) : FileResult :=
  { detailed := (compare_sheets t1 t2 none 10000).detailed
    summary := (compare_sheets t1 t2 none 10000).summary
    errors := { emptyFileErrorDetails with
      column_differences :=
        [("data", (compare_sheets t1 t2 none 10000).errors.column_differences)]
      row_differences :=
        [("data", (compare_sheets t1 t2 none 10000).errors.row_differences)]
      value_differences :=
        if (compare_sheets t1 t2 none 10000).errors.value_differences.isEmpty then []
        else [("data", (compare_sheets t1 t2 none 10000).errors.value_differences)] } }

/-- The entry point `compare_files(data1, data2)` of comparison.py lines
10-122.  Both call sites of `compare_sheets` (lines 67-69 and 103-105) pass no
key columns, so the default `key_columns=None` and `chunk_size=10000` apply;
mismatched input types fail fast (lines 28-31). -/
def compare_files (data1 data2 : FileData) : FileResult :=
  match data1, data2 with
  | .excel names1 sheets1, .excel names2 sheets2 =>
    compareExcelFiles names1 names2 sheets1 sheets2
  | .csv t1, .csv t2 => compareCsvFiles t1 t2
  | d1, d2 =>
    { detailed := [.fileTypesDiffer d1.ftype d2.ftype]
      summary := [.fileTypesDiffer d1.ftype d2.ftype]
      errors := emptyFileErrorDetails }

/-- The renderer-side cap of highlighting.py lines 551-553 (and the identical
lines 213-215 of the Excel path): lists longer than 1,000 records are cut to
their first 1,000 entries before any highlighting work. -/
def truncateValueDiffs (l : List ValueDiff) : List ValueDiff :=
  if 1000 < l.length then l.take 1000 else l

/-- The string key the renderer derives from one difference record
(highlighting.py lines 560-568): key dictionaries render as
`"k1=v1|k2=v2"` and row positions render via `str`. -/
def diffKeyString : RowLocator → String
  | .key kv => String.intercalate "|" (kv.map (fun p => p.1 ++ "=" ++ p.2))
  | .idx r => toString r

/-- The union of both tables' columns, `list(set(...))` of highlighting.py
line 429, with first-appearance order as the deterministic stand-in. -/
def allColsList (df1 df2 : Table) : List String :=
  (df1.columns ++ df2.columns).dedup

/-- The 1-based worksheet column index of a column name (highlighting.py
line 438). -/
def colIndexOf (df1 df2 : Table) (c : String) : Nat :=
  (allColsList df1 df2).findIdx (· == c) + 1

/-- One nested-dictionary update of `diff_lookup` (highlighting.py lines
577-585). -/
def diffLookupInsert (d : List (String × List (String × (String × String))))
    (k : String) (c : String) (v : String × String) :
    List (String × List (String × (String × String))) :=
  if d.any (fun p => p.1 == k) then
    d.map (fun p => if p.1 == k then (p.1, dictInsert p.2 c v) else p)
  else d ++ [(k, [(c, v)])]

/-- The `diff_lookup` dictionary built from the (already truncated) record
list (highlighting.py lines 555-585); records whose column is unknown are
skipped. -/
def buildDiffLookup (df1 df2 : Table) (l : List ValueDiff) :
    List (String × List (String × (String × String))) :=
  l.foldl (fun d diff =>
    if (allColsList df1 df2).contains diff.column then
      diffLookupInsert d (diffKeyString diff.locator) diff.column
        (diff.value1, diff.value2)
    else d) []

/-- Whether a record carries a key dictionary (`isinstance(diff.get("key"),
dict)` in highlighting.py line 589). -/
def hasDictKey : ValueDiff → Bool
  | ⟨.key _, _, _, _⟩ => true
  | ⟨.idx _, _, _, _⟩ => false

/-- The key columns the renderer recovers from the first keyed record
(highlighting.py lines 592-599), falling back to the first column of `df1`. -/
def firstKeyCols (l : List ValueDiff) (df1 : Table) : List String :=
  match l.findSome? (fun d =>
    match d.locator with
    | .key kv => some (kv.map (·.1))
    | .idx _ => none) with
  | some kc => if kc.isEmpty then [df1.columns.getD 0 ""] else kc
  | none => [df1.columns.getD 0 ""]

/-- The `key_to_row` dictionary of highlighting.py lines 601-612:
`"col=str(row[col])"` fragments joined by `"|"`, last row wins. -/
def keyToRow (df1 : Table) (kc : List String) : List (String × Nat) :=
  df1.rows.enum.foldl (fun d p =>
    let keyStr := String.intercalate "|"
      ((kc.filter (fun c => df1.columns.contains c)).map
        (fun c => c ++ "=" ++ strRaw (rowGet df1.columns p.2 c)))
    dictInsert d keyStr p.1) []

/-- One cell-highlighting action of the renderer: the worksheet coordinates
plus the two values written into the attached comment. -/
structure Highlight where
  row : Int
  col : Nat
  value1 : String
  value2 : String
deriving DecidableEq

/-- The key-based highlighting pass of highlighting.py lines 587-631. -/
def keyBasedHighlights (df1 df2 : Table) (l : List ValueDiff)
    (lookup : List (String × List (String × (String × String)))) :
    List Highlight :=
  if l.any hasDictKey then
    let kc := firstKeyCols l df1
    let k2r := keyToRow df1 kc
    lookup.flatMap (fun p =>
      match List.lookup p.1 k2r with
      | some i =>
        p.2.filterMap (fun q =>
          if (allColsList df1 df2).contains q.1 then
            some ⟨(i : Int) + 2, colIndexOf df1 df2 q.1, q.2.1, q.2.2⟩
          else none)
      | none => [])
  else []

/-- The row-based highlighting pass of highlighting.py lines 633-656: keys
that parse as integers are treated as row positions, others are skipped. -/
def rowBasedHighlights (df1 df2 : Table)
    (lookup : List (String × List (String × (String × String)))) :
    List Highlight :=
  lookup.flatMap (fun p =>
    match p.1.toInt? with
    | some r =>
      p.2.filterMap (fun q =>
        if (allColsList df1 df2).contains q.1 then
          some ⟨r + 2, colIndexOf df1 df2 q.1, q.2.1, q.2.2⟩
        else none)
    | none => [])

/-- The value-difference stage of `highlight_differences_csv` (highlighting.py
lines 547-656): truncate the record list to 1,000 entries, build the lookup
dictionary from the truncated list, and emit the key-based and row-based cell
highlights.  Nothing else of the renderer's output depends on the record
list. -/
def highlightValueDiffsCsv (df1 df2 : Table) (valueDiffs : List ValueDiff) :
    List Highlight :=
  let l := truncateValueDiffs valueDiffs
  let lookup := buildDiffLookup df1 df2 l
  keyBasedHighlights df1 df2 l lookup ++ rowBasedHighlights df1 df2 lookup

/-! ### Chunking lemmas

Slicing a list into chunks and concatenating the per-chunk outputs is the
identity on the underlying traversal order when each chunk is processed
element by element, and a permutation when each chunk is processed
column-major. -/

theorem chunksOfAux_flatten {α : Type} (cs : Nat) (hcs : 0 < cs) :
    ∀ (fuel : Nat) (l : List α), l.length ≤ fuel →
      (chunksOfAux cs fuel l).flatten = l := by
  intro fuel
  induction fuel with
  | zero =>
    intro l h
    have hl : l = [] := List.length_eq_zero.mp (Nat.le_zero.mp h)
    subst hl
    rfl
  | succ fuel ih =>
    intro l h
    by_cases he : l.isEmpty
    · simp only [chunksOfAux, if_pos he]
      simp_all [List.isEmpty_iff]
    · simp only [chunksOfAux, if_neg he]
      have hne : l ≠ [] := by
        intro h0
        exact he (by simp [h0])
      have hlen : (l.drop cs).length ≤ fuel := by
        have h1 : 0 < l.length := List.length_pos.mpr hne
        simp only [List.length_drop]
        omega
      rw [List.flatten_cons, ih (l.drop cs) hlen, List.take_append_drop]

theorem chunksOf_flatten {α : Type} (cs : Nat) (l : List α) (hcs : 0 < cs) :
    (chunksOf cs l).flatten = l := by
  unfold chunksOf
  rw [if_neg (Nat.pos_iff_ne_zero.mp hcs)]
  exact chunksOfAux_flatten cs hcs l.length l (Nat.le_refl _)

theorem chunksOf_flatMap {α β : Type} (cs : Nat) (l : List α) (g : α → List β)
    (hcs : 0 < cs) :
    (chunksOf cs l).flatMap (fun chunk => chunk.flatMap g) = l.flatMap g := by
  conv => rhs; rw [← chunksOf_flatten cs l hcs]
  rw [List.flatten_eq_flatMap, List.flatMap_assoc]
  simp only [id_eq]

theorem filterMap_eq_flatMap_toList {α β : Type} (f : α → Option β) (l : List α) :
    l.filterMap f = l.flatMap (fun a => (f a).toList) := by
  induction l with
  | nil => rfl
  | cons a l ih =>
    rw [List.filterMap_cons, List.flatMap_cons, ← ih]
    cases f a <;> simp

/-- Iterating a rectangle of index pairs column-major is a permutation of
iterating it row-major. -/
theorem flatMap_filterMap_perm {α β γ : Type} (xs : List α) (ys : List β)
    (g : α → β → Option γ) :
    List.Perm (xs.flatMap fun x => ys.filterMap (g x))
      (ys.flatMap fun y => xs.filterMap (fun x => g x y)) := by
  rw [← Multiset.coe_eq_coe]
  have e1 : ((xs.flatMap fun x => ys.filterMap (g x) : List γ) : Multiset γ)
      = Multiset.bind ↑xs (fun x => Multiset.bind ↑ys (fun y => ↑((g x y).toList))) := by
    rw [← Multiset.coe_bind]
    apply Multiset.bind_congr
    intro x _
    rw [filterMap_eq_flatMap_toList, ← Multiset.coe_bind]
  have e2 : ((ys.flatMap fun y => xs.filterMap (fun x => g x y) : List γ) : Multiset γ)
      = Multiset.bind ↑ys (fun y => Multiset.bind ↑xs (fun x => ↑((g x y).toList))) := by
    rw [← Multiset.coe_bind]
    apply Multiset.bind_congr
    intro y _
    rw [filterMap_eq_flatMap_toList, ← Multiset.coe_bind]
  rw [e1, e2, Multiset.bind_bind]

/-- The positional value differences with any positive chunk size are a
permutation of their chunk-free row-major form. -/
theorem posValueDiffs_perm (df1 df2 : Table) (cs : Nat) (hcs : 0 < cs) :
    List.Perm (posValueDiffs df1 df2 cs) (posCanonicalDiffs df1 df2) := by
  unfold posValueDiffs posCanonicalDiffs
  have h1 : List.Perm
      ((chunksOf cs (List.range (minRows df1 df2))).flatMap
        (fun chunk => (commonColsList df1 df2).flatMap fun c =>
          chunk.filterMap (posDiffAt df1 df2 c)))
      ((chunksOf cs (List.range (minRows df1 df2))).flatMap
        (fun chunk => chunk.flatMap fun r =>
          (commonColsList df1 df2).filterMap (fun c => posDiffAt df1 df2 c r))) :=
    List.Perm.flatMap_left _ (fun chunk _ => flatMap_filterMap_perm _ _ _)
  have h2 := chunksOf_flatMap cs (List.range (minRows df1 df2))
    (fun r => (commonColsList df1 df2).filterMap (fun c => posDiffAt df1 df2 c r)) hcs
  exact h1.trans (h2 ▸ List.Perm.refl _)

/-- The keyed value differences are independent of the (positive) chunk size,
even as ordered lists: chunking the key list and concatenating the per-chunk
outputs restores the original traversal order. -/
theorem keyedValueDiffs_eq (df1 df2 : Table) (kc : List String) (cs : Nat)
    (hcs : 0 < cs) :
    keyedValueDiffs df1 df2 kc cs = keyedCanonicalDiffs df1 df2 kc := by
  unfold keyedValueDiffs keyedCanonicalDiffs
  exact chunksOf_flatMap _ _ _ hcs

/-! ### Branch lemmas for compare_sheets -/

theorem compare_sheets_self (t : Table) (kcs : Option (List String)) (cs : Nat) :
    compare_sheets t t kcs cs = ⟨[], [], emptyErrorDetails⟩ := by
  rw [compare_sheets.eq_def, if_pos rfl]

theorem compare_sheets_none (df1 df2 : Table) (cs : Nat) (h : df1 ≠ df2) :
    compare_sheets df1 df2 none cs = posSheetResult df1 df2 cs := by
  rw [compare_sheets.eq_def, if_neg h]

theorem compare_sheets_keyed (df1 df2 : Table) (kc : List String) (cs : Nat)
    (h : df1 ≠ df2) (hkc : kc ≠ [])
    (h1 : ∀ c ∈ kc, c ∈ df1.columns) (h2 : ∀ c ∈ kc, c ∈ df2.columns) :
    compare_sheets df1 df2 (some kc) cs = keyedSheetResult df1 df2 kc cs := by
  rw [compare_sheets.eq_def, if_neg h]
  have hkc' : kc.isEmpty = false := by simp [hkc]
  have hall : (kc.all (fun c => df1.columns.contains c) &&
      kc.all (fun c => df2.columns.contains c)) = true := by
    simp only [Bool.and_eq_true, List.all_eq_true]
    exact ⟨fun c hc => by simpa using h1 c hc, fun c hc => by simpa using h2 c hc⟩
  simp only [hkc', Bool.false_eq_true, if_false, hall, if_true]

theorem compare_sheets_none_row_lists (t1 t2 : Table) (cs : Nat) :
    (compare_sheets t1 t2 none cs).errors.row_differences.missing_rows = [] ∧
    (compare_sheets t1 t2 none cs).errors.row_differences.extra_rows = [] := by
  by_cases h : t1 = t2
  · subst h
    rw [compare_sheets_self]
    exact ⟨rfl, rfl⟩
  · rw [compare_sheets_none _ _ _ h]
    exact ⟨rfl, rfl⟩

theorem compare_sheets_none_value_diffs (df1 df2 : Table) (cs : Nat)
    (h : df1 ≠ df2) :
    (compare_sheets df1 df2 none cs).errors.value_differences =
      posValueDiffs df1 df2 cs := by
  rw [compare_sheets_none _ _ _ h]
  rfl

theorem compare_sheets_keyerror (df1 df2 : Table) (kc : List String) (cs : Nat)
    (h : df1 ≠ df2) (hkc : kc ≠ [])
    (hmiss : ¬ ((∀ c ∈ kc, c ∈ df1.columns) ∧ (∀ c ∈ kc, c ∈ df2.columns))) :
    compare_sheets df1 df2 (some kc) cs = keyErrorSheetResult df1 df2 kc := by
  rw [compare_sheets.eq_def, if_neg h]
  have hkc' : kc.isEmpty = false := by simp [hkc]
  have hall : (kc.all (fun c => df1.columns.contains c) &&
      kc.all (fun c => df2.columns.contains c)) = false := by
    rw [Bool.and_eq_false_iff]
    by_contra hb
    push_neg at hb
    apply hmiss
    constructor
    · intro c hc
      have := List.all_eq_true.mp (Bool.not_eq_false _ |>.mp hb.1) c hc
      simpa using this
    · intro c hc
      have := List.all_eq_true.mp (Bool.not_eq_false _ |>.mp hb.2) c hc
      simpa using this
  simp only [hkc', Bool.false_eq_true, if_false, hall]

theorem compare_sheets_column_differences (df1 df2 : Table)
    (kcs : Option (List String)) (cs : Nat) (h : df1 ≠ df2) :
    (compare_sheets df1 df2 kcs cs).errors.column_differences =
      columnDiffsOf df1 df2 := by
  rw [compare_sheets.eq_def, if_neg h]
  cases kcs with
  | none => rfl
  | some kc =>
    by_cases hkc : kc.isEmpty
    · simp only [hkc, if_true]
      rfl
    · by_cases hall : (kc.all (fun c => df1.columns.contains c) &&
          kc.all (fun c => df2.columns.contains c)) = true
      · simp only [hkc, Bool.false_eq_true, if_false, hall, if_true]
        rfl
      · simp only [hkc, Bool.false_eq_true, if_false, hall]
        rfl

/-- Comparing a table with itself yields no positional differences: every cell
equals itself. -/
theorem posCanonicalDiffs_self (t : Table) : posCanonicalDiffs t t = [] := by
  unfold posCanonicalDiffs
  rw [List.flatMap_eq_nil_iff]
  intro r _
  rw [List.filterMap_eq_nil_iff]
  intro c _
  unfold posDiffAt
  simp

/-- Comparing a table with itself yields no keyed differences for any key. -/
theorem keyedCanonicalDiffs_self (t : Table) (kc : List String) :
    keyedCanonicalDiffs t t kc = [] := by
  unfold keyedCanonicalDiffs
  rw [List.flatMap_eq_nil_iff]
  intro key _
  unfold keyedDiffForKey
  rw [List.filterMap_eq_nil_iff]
  intro c _
  simp

theorem keyedMissingKeys_self (t : Table) (kc : List String) :
    keyedMissingKeys t t kc = [] := by
  unfold keyedMissingKeys
  rw [List.filter_eq_nil_iff]
  intro k hk
  simp [hk]

theorem keyedExtraKeys_self (t : Table) (kc : List String) :
    keyedExtraKeys t t kc = [] := by
  unfold keyedExtraKeys
  rw [List.filter_eq_nil_iff]
  intro k hk
  simp [hk]

theorem posDiffAt_eq_some (df1 df2 : Table) (c : String) (r : Nat)
    (d : ValueDiff) :
    posDiffAt df1 df2 c r = some d ↔
      (strRaw (cellAt df1 r c) ≠ strRaw (cellAt df2 r c) ∧
        d = ⟨.idx r, c, strRaw (cellAt df1 r c), strRaw (cellAt df2 r c)⟩) := by
  unfold posDiffAt
  by_cases hne : strRaw (cellAt df1 r c) ≠ strRaw (cellAt df2 r c)
  · rw [if_pos hne]
    simp only [Option.some_inj]
    exact ⟨fun h => ⟨hne, h.symm⟩, fun h => h.2.symm⟩
  · rw [if_neg hne]
    simp [hne]

theorem mem_posCanonicalDiffs (df1 df2 : Table) (d : ValueDiff) :
    d ∈ posCanonicalDiffs df1 df2 ↔
      ∃ r, r < minRows df1 df2 ∧ ∃ c, c ∈ commonColsList df1 df2 ∧
        strRaw (cellAt df1 r c) ≠ strRaw (cellAt df2 r c) ∧
        d = ⟨.idx r, c, strRaw (cellAt df1 r c), strRaw (cellAt df2 r c)⟩ := by
  unfold posCanonicalDiffs
  simp only [List.mem_flatMap, List.mem_filterMap, List.mem_range]
  constructor
  · rintro ⟨r, hr, c, hc, hd⟩
    rw [posDiffAt_eq_some] at hd
    exact ⟨r, hr, c, hc, hd.1, hd.2⟩
  · rintro ⟨r, hr, c, hc, hne, hd⟩
    exact ⟨r, hr, c, hc, (posDiffAt_eq_some _ _ _ _ _).mpr ⟨hne, hd⟩⟩

theorem keyedDiff_eq_some (df1 df2 : Table) (kc : List String)
    (key : List String) (c : String) (d : ValueDiff) :
    (if strNotna (rowGet df1.columns (dictLookup (buildKeyDict df1 kc) key) c) ≠
          strNotna (rowGet df2.columns (dictLookup (buildKeyDict df2 kc) key) c)
      then some (⟨.key (kc.zip key), c,
          strNotna (rowGet df1.columns (dictLookup (buildKeyDict df1 kc) key) c),
          strNotna (rowGet df2.columns (dictLookup (buildKeyDict df2 kc) key) c)⟩ : ValueDiff)
      else none) = some d ↔
      (strNotna (rowGet df1.columns (dictLookup (buildKeyDict df1 kc) key) c) ≠
          strNotna (rowGet df2.columns (dictLookup (buildKeyDict df2 kc) key) c) ∧
        d = ⟨.key (kc.zip key), c,
          strNotna (rowGet df1.columns (dictLookup (buildKeyDict df1 kc) key) c),
          strNotna (rowGet df2.columns (dictLookup (buildKeyDict df2 kc) key) c)⟩) := by
  by_cases hne : strNotna (rowGet df1.columns (dictLookup (buildKeyDict df1 kc) key) c) ≠
      strNotna (rowGet df2.columns (dictLookup (buildKeyDict df2 kc) key) c)
  · rw [if_pos hne]
    simp only [Option.some_inj]
    exact ⟨fun h => ⟨hne, h.symm⟩, fun h => h.2.symm⟩
  · rw [if_neg hne]
    simp [hne]

theorem mem_keyedCanonicalDiffs (df1 df2 : Table) (kc : List String)
    (d : ValueDiff) :
    d ∈ keyedCanonicalDiffs df1 df2 kc ↔
      ∃ key, key ∈ keyedCommonKeys df1 df2 kc ∧ ∃ c, c ∈ commonColsList df1 df2 ∧
        strNotna (rowGet df1.columns (dictLookup (buildKeyDict df1 kc) key) c) ≠
          strNotna (rowGet df2.columns (dictLookup (buildKeyDict df2 kc) key) c) ∧
        d = ⟨.key (kc.zip key), c,
          strNotna (rowGet df1.columns (dictLookup (buildKeyDict df1 kc) key) c),
          strNotna (rowGet df2.columns (dictLookup (buildKeyDict df2 kc) key) c)⟩ := by
  unfold keyedCanonicalDiffs keyedDiffForKey
  simp only [List.mem_flatMap, List.mem_filterMap]
  constructor
  · rintro ⟨key, hkey, c, hc, hd⟩
    rw [keyedDiff_eq_some] at hd
    exact ⟨key, hkey, c, hc, hd.1, hd.2⟩
  · rintro ⟨key, hkey, c, hc, hne, hd⟩
    exact ⟨key, hkey, c, hc, (keyedDiff_eq_some df1 df2 kc key c d).mpr ⟨hne, hd⟩⟩

/-- Every row-differences entry accumulated by the per-sheet fold comes from a
`compare_sheets` call without key columns, so its enumerated row lists are
empty. -/
theorem foldl_sheetStep_row_lists (sheets1 sheets2 : List (String × Table))
    (common : List String) (acc : FileResult)
    (hacc : ∀ p ∈ acc.errors.row_differences,
      p.2.missing_rows = [] ∧ p.2.extra_rows = []) :
    ∀ p ∈ (common.foldl (compareFilesSheetStep sheets1 sheets2) acc).errors.row_differences,
      p.2.missing_rows = [] ∧ p.2.extra_rows = [] := by
  induction common generalizing acc with
  | nil => exact hacc
  | cons s rest ih =>
    rw [List.foldl_cons]
    apply ih
    intro p hp
    unfold compareFilesSheetStep at hp
    cases h1 : List.lookup s sheets1 with
    | none =>
      rw [h1] at hp
      exact hacc p hp
    | some t1 =>
      cases h2 : List.lookup s sheets2 with
      | none =>
        rw [h1, h2] at hp
        exact hacc p hp
      | some t2 =>
        rw [h1, h2] at hp
        unfold mergeSheetResult at hp
        simp only [List.mem_append, List.mem_singleton] at hp
        rcases hp with hp | hp
        · exact hacc p hp
        · rw [hp]
          exact compare_sheets_none_row_lists t1 t2 10000

/-! ### Claim theorems -/

/-- C4: for every table T (and any key columns and chunk size),
compare_sheets(T, T) returns the all-empty result through the
`df1.equals(df2)` fast path: no missing, extra or reordered columns, zero
count_diff, no enumerated rows, no value differences, and empty detailed and
summary reports. -/
theorem C4_identity_fast_path (t : Table) (kcs : Option (List String))
    (cs : Nat) :
    compare_sheets t t kcs cs = ⟨[], [], emptyErrorDetails⟩ := by
  rw [compare_sheets.eq_def, if_pos rfl]

/-- C5: for A = [ID,Value] with rows [(1,10),(2,20)] and B with rows
[(1,10),(2,25)], compared with key_columns=[ID], the result holds exactly one
value difference, with key {ID: 2}, column Value, value1 "20", value2 "25",
and no column, row-count or missing/extra-row differences. -/
theorem C5_keyed_single_value_difference :
    compare_sheets
      ⟨["ID", "Value"], [[Cell.val "1", Cell.val "10"], [Cell.val "2", Cell.val "20"]]⟩
      ⟨["ID", "Value"], [[Cell.val "1", Cell.val "10"], [Cell.val "2", Cell.val "25"]]⟩
      (some ["ID"]) 10000 =
    ⟨[.valueDifferences 1], [.valueDifferences 1],
     ⟨⟨[], [], []⟩, ⟨0, [], []⟩,
      [⟨.key [("ID", "2")], "Value", "20", "25"⟩]⟩⟩ := by
  decide

/-- C9: whenever the two top-level inputs have different type tags,
compare_files reports only the type-mismatch condition and records no sheet,
column, row or value differences. -/
theorem C9_type_mismatch_fails_fast (d1 d2 : FileData)
    (h : d1.ftype ≠ d2.ftype) :
    compare_files d1 d2 =
      ⟨[.fileTypesDiffer d1.ftype d2.ftype],
       [.fileTypesDiffer d1.ftype d2.ftype],
       emptyFileErrorDetails⟩ := by
  cases d1 <;> cases d2
  · exact absurd rfl h
  · rfl
  · rfl
  · exact absurd rfl h

/-- C9 witness: a CSV input against an Excel input at a concrete pair. -/
theorem C9_witness :
    compare_files (FileData.csv ⟨["a"], []⟩) (FileData.excel ["s"] []) =
      ⟨[.fileTypesDiffer "csv" "excel"], [.fileTypesDiffer "csv" "excel"],
       emptyFileErrorDetails⟩ :=
  C9_type_mismatch_fails_fast (FileData.csv ⟨["a"], []⟩)
    (FileData.excel ["s"] []) (by decide)

/-- C1 counterexample: for A with columns [x,a,b] and B with columns [a,b]
(the same relative order of a and b), the claim predicts an empty
reordered_columns, but the code flags both a and b because the absent column
x shifts their absolute indices. -/
theorem C1_counterexample :
    (compare_sheets ⟨["x", "a", "b"], []⟩ ⟨["a", "b"], []⟩ none
        10000).errors.column_differences.reordered_columns = ["a", "b"] ∧
    (["a", "b"] : List String) ≠ [] := by
  constructor
  · decide
  · decide

/-- C1 amended: a common column is flagged as reordered exactly when the two
full column lists differ and its first index in A's full column list differs
from its first index in B's full column list; absolute indices are compared,
so a missing or extra column shifts positions and can flag columns whose
relative order among the common columns is unchanged. -/
theorem C1_amended_reorder_by_absolute_index (df1 df2 : Table)
    (kcs : Option (List String)) (cs : Nat) (c : String) :
    c ∈ (compare_sheets df1 df2 kcs cs).errors.column_differences.reordered_columns ↔
      (df1.columns ≠ df2.columns ∧ c ∈ df1.columns ∧ c ∈ df2.columns ∧
        df1.columns.findIdx (· == c) ≠ df2.columns.findIdx (· == c)) := by
  by_cases h : df1 = df2
  · subst h
    rw [compare_sheets_self]
    simp [emptyErrorDetails, emptyColumnDifferences]
  · rw [compare_sheets_column_differences df1 df2 kcs cs h]
    unfold columnDiffsOf reorderedColsList
    by_cases hcols : df1.columns = df2.columns
    · simp [hcols]
    · rw [if_neg hcols]
      simp only [List.mem_filter, Bool.and_eq_true, bne_iff_ne]
      constructor
      · rintro ⟨hc1, hc2, hne⟩
        exact ⟨hcols, hc1, by simpa using hc2, hne⟩
      · rintro ⟨_, hc1, hc2, hne⟩
        exact ⟨hc1, ⟨by simpa using hc2, hne⟩⟩

/-- C2 counterexample: in positional mode a missing cell is normalized with
plain str() to "nan", not to "NaN" as the claim states; compared against the
literal string value "NaN" the code reports a difference with value1 "nan",
where the claim predicts normalization to "NaN" on both sides and hence no
difference. -/
theorem C2_counterexample :
    (compare_sheets ⟨["c"], [[Cell.missing]]⟩ ⟨["c"], [[Cell.val "NaN"]]⟩ none
        10000).errors.value_differences =
      [⟨.idx 0, "c", "nan", "NaN"⟩] ∧ ("nan" : String) ≠ "NaN" := by
  constructor
  · decide
  · decide

/-- C3 counterexample: for identical tables and a key column absent from both,
the `df1.equals(df2)` fast path returns the empty result without reporting
the KeyColumnsNotFound condition. -/
theorem C3_counterexample :
    compare_sheets ⟨["a"], [[Cell.val "1"]]⟩ ⟨["a"], [[Cell.val "1"]]⟩
        (some ["zz"]) 10000 = ⟨[], [], emptyErrorDetails⟩ ∧
    ¬ ("zz" ∈ (⟨["a"], [[Cell.val "1"]]⟩ : Table).columns) ∧
    (["zz"] : List String) ≠ [] := by
  refine ⟨?_, by decide, by decide⟩
  rw [compare_sheets.eq_def, if_pos rfl]

/-- C10: compare_files invokes compare_sheets only with the default
key_columns=None, so every comparison is positional and every row_differences
entry in its result has empty missing_rows and extra_rows lists; surplus rows
show up only in count_diff. -/
theorem C10_no_keyed_matching_through_compare_files (d1 d2 : FileData)
    (p : String × RowDifferences)
    (hp : p ∈ (compare_files d1 d2).errors.row_differences) :
    p.2.missing_rows = [] ∧ p.2.extra_rows = [] := by
  cases d1 with
  | csv t1 =>
    cases d2 with
    | excel n s => exact absurd hp (List.not_mem_nil p)
    | csv t2 =>
      have hp' : p ∈ (compareCsvFiles t1 t2).errors.row_differences := hp
      unfold compareCsvFiles at hp'
      simp only [List.mem_singleton] at hp'
      rw [hp']
      exact compare_sheets_none_row_lists t1 t2 10000
  | excel n1 s1 =>
    cases d2 with
    | csv t2 => exact absurd hp (List.not_mem_nil p)
    | excel n2 s2 =>
      have hp' : p ∈ ((n1.filter (fun s => n2.contains s)).foldl
          (compareFilesSheetStep s1 s2)
          (excelBaseResult n1 n2)).errors.row_differences := hp
      refine foldl_sheetStep_row_lists s1 s2 _ _ ?_ p hp'
      intro q hq
      exact absurd hq (List.not_mem_nil q)

/-- C10 witness: a concrete CSV pair with differing rows produces a
row_differences entry whose enumerated lists are empty. -/
theorem C10_witness :
    ((("data", (⟨(1 : Int), [], []⟩ : RowDifferences)) :
        String × RowDifferences).2.missing_rows = []) ∧
    ((("data", (⟨(1 : Int), [], []⟩ : RowDifferences)) :
        String × RowDifferences).2.extra_rows = []) :=
  C10_no_keyed_matching_through_compare_files
    (FileData.csv ⟨["a"], [[Cell.val "1"], [Cell.val "2"]]⟩)
    (FileData.csv ⟨["a"], [[Cell.val "1"]]⟩)
    ("data", ⟨(1 : Int), [], []⟩)
    (by decide)

/-- C3 amended: for every pair of distinct tables and every non-empty
key_columns list with some key column absent from either table, compare_sheets
reports the KeyColumnsNotFound condition naming exactly the missing key
columns, attempts no row or value comparison, and still records the column
differences and the row-count difference.  (For identical tables the
`df1.equals(df2)` fast path returns first and nothing is reported.) -/
theorem C3_amended_key_columns_not_found (df1 df2 : Table) (kc : List String)
    (cs : Nat) (h : df1 ≠ df2) (hkc : kc ≠ [])
    (hmiss : ∃ c ∈ kc, c ∉ df1.columns ∨ c ∉ df2.columns) :
    (compare_sheets df1 df2 (some kc) cs).errors.value_differences = [] ∧
    (compare_sheets df1 df2 (some kc) cs).errors.row_differences =
      ⟨rowCountDiff df1 df2, [], []⟩ ∧
    (compare_sheets df1 df2 (some kc) cs).errors.column_differences =
      columnDiffsOf df1 df2 ∧
    ReportItem.keyColumnsNotFound (missingKeyColsList df1 df2 kc) ∈
      (compare_sheets df1 df2 (some kc) cs).detailed ∧
    ReportItem.keyColumnsMissingSummary ∈
      (compare_sheets df1 df2 (some kc) cs).summary ∧
    missingKeyColsList df1 df2 kc ≠ [] ∧
    (∀ c, c ∈ missingKeyColsList df1 df2 kc ↔
      (c ∈ kc ∧ (c ∉ df1.columns ∨ c ∉ df2.columns))) := by
  have hmiss' : ¬ ((∀ c ∈ kc, c ∈ df1.columns) ∧ (∀ c ∈ kc, c ∈ df2.columns)) := by
    rintro ⟨h1, h2⟩
    obtain ⟨c, hc, hor⟩ := hmiss
    rcases hor with h0 | h0
    · exact h0 (h1 c hc)
    · exact h0 (h2 c hc)
  have hmem : ∀ c, c ∈ missingKeyColsList df1 df2 kc ↔
      (c ∈ kc ∧ (c ∉ df1.columns ∨ c ∉ df2.columns)) := by
    intro c
    unfold missingKeyColsList
    simp [List.mem_filter]
  rw [compare_sheets_keyerror df1 df2 kc cs h hkc hmiss']
  refine ⟨rfl, rfl, rfl, ?_, ?_, ?_, hmem⟩
  · exact List.mem_append_right _ (List.mem_singleton_self _)
  · exact List.mem_append_right _ (List.mem_singleton_self _)
  · obtain ⟨c, hc, hor⟩ := hmiss
    exact List.ne_nil_of_mem ((hmem c).mpr ⟨hc, hor⟩)

/-- C3 witness: distinct one-column tables with the key column "zz" missing
from both. -/
theorem C3_witness :
    ReportItem.keyColumnsNotFound
        (missingKeyColsList ⟨["a"], [[Cell.val "1"]]⟩ ⟨["a"], [[Cell.val "2"]]⟩
          ["zz"]) ∈
      (compare_sheets ⟨["a"], [[Cell.val "1"]]⟩ ⟨["a"], [[Cell.val "2"]]⟩
        (some ["zz"]) 10000).detailed :=
  (C3_amended_key_columns_not_found ⟨["a"], [[Cell.val "1"]]⟩
    ⟨["a"], [[Cell.val "2"]]⟩ ["zz"] 10000 (by decide) (by decide)
    ⟨"zz", by decide, Or.inl (by decide)⟩).2.2.2.1

/-- C6: in keyed mode the enumerated missing_rows and extra_rows lists are
truncated to at most 100 key descriptors (the first 100 of the A-only or
B-only keys), while the report lines carry the full counts of A-only and
B-only keys. -/
theorem C6_row_enumeration_capped_at_100 (df1 df2 : Table) (kc : List String)
    (cs : Nat) (hkc : kc ≠ []) (h1 : ∀ c ∈ kc, c ∈ df1.columns)
    (h2 : ∀ c ∈ kc, c ∈ df2.columns) :
    (compare_sheets df1 df2 (some kc) cs).errors.row_differences.missing_rows.length ≤ 100 ∧
    (compare_sheets df1 df2 (some kc) cs).errors.row_differences.extra_rows.length ≤ 100 ∧
    (keyedMissingKeys df1 df2 kc ≠ [] →
      (compare_sheets df1 df2 (some kc) cs).errors.row_differences.missing_rows =
        ((keyedMissingKeys df1 df2 kc).take 100).map (fun k => kc.zip k) ∧
      ReportItem.missingRowsDetail (keyedMissingKeys df1 df2 kc).length ∈
        (compare_sheets df1 df2 (some kc) cs).detailed ∧
      ReportItem.missingRowsCount (keyedMissingKeys df1 df2 kc).length ∈
        (compare_sheets df1 df2 (some kc) cs).summary) ∧
    (keyedExtraKeys df1 df2 kc ≠ [] →
      (compare_sheets df1 df2 (some kc) cs).errors.row_differences.extra_rows =
        ((keyedExtraKeys df1 df2 kc).take 100).map (fun k => kc.zip k) ∧
      ReportItem.extraRowsDetail (keyedExtraKeys df1 df2 kc).length ∈
        (compare_sheets df1 df2 (some kc) cs).detailed ∧
      ReportItem.extraRowsCount (keyedExtraKeys df1 df2 kc).length ∈
        (compare_sheets df1 df2 (some kc) cs).summary) := by
  by_cases h : df1 = df2
  · subst h
    rw [compare_sheets_self]
    refine ⟨by simp [emptyErrorDetails, emptyRowDifferences],
      by simp [emptyErrorDetails, emptyRowDifferences], ?_, ?_⟩
    · intro hne
      exact absurd (keyedMissingKeys_self df1 kc) hne
    · intro hne
      exact absurd (keyedExtraKeys_self df1 kc) hne
  · rw [compare_sheets_keyed df1 df2 kc cs h hkc h1 h2]
    refine ⟨?_, ?_, ?_, ?_⟩
    · simp only [keyedSheetResult, List.length_map, List.length_take]
      exact Nat.min_le_left _ _
    · simp only [keyedSheetResult, List.length_map, List.length_take]
      exact Nat.min_le_left _ _
    · intro hne
      have he : (keyedMissingKeys df1 df2 kc).isEmpty = false := by
        simp [hne]
      refine ⟨rfl, ?_, ?_⟩
      · simp [keyedSheetResult, he, List.mem_append]
      · simp [keyedSheetResult, he, List.mem_append]
    · intro hne
      have he : (keyedExtraKeys df1 df2 kc).isEmpty = false := by
        simp [hne]
      refine ⟨rfl, ?_, ?_⟩
      · simp [keyedSheetResult, he, List.mem_append]
      · simp [keyedSheetResult, he, List.mem_append]

set_option maxRecDepth 100000 in
/-- C6 witness: 151 keyed rows in A against one row in B give 150 A-only keys;
the enumerated list is capped at 100 while the detailed report carries the
count of all 150. -/
theorem C6_witness :
    (compare_sheets ⟨["ID"], (List.range 151).map (fun i => [Cell.val (toString i)])⟩
        ⟨["ID"], [[Cell.val "0"]]⟩ (some ["ID"]) 10000).errors.row_differences.missing_rows.length ≤ 100 ∧
    ReportItem.missingRowsDetail
        (keyedMissingKeys ⟨["ID"], (List.range 151).map (fun i => [Cell.val (toString i)])⟩
          ⟨["ID"], [[Cell.val "0"]]⟩ ["ID"]).length ∈
      (compare_sheets ⟨["ID"], (List.range 151).map (fun i => [Cell.val (toString i)])⟩
        ⟨["ID"], [[Cell.val "0"]]⟩ (some ["ID"]) 10000).detailed :=
  ⟨(C6_row_enumeration_capped_at_100
      ⟨["ID"], (List.range 151).map (fun i => [Cell.val (toString i)])⟩
      ⟨["ID"], [[Cell.val "0"]]⟩ ["ID"] 10000 (by decide) (by decide) (by decide)).1,
   ((C6_row_enumeration_capped_at_100
      ⟨["ID"], (List.range 151).map (fun i => [Cell.val (toString i)])⟩
      ⟨["ID"], [[Cell.val "0"]]⟩ ["ID"] 10000 (by decide) (by decide) (by decide)).2.2.1
      (by decide)).2.1⟩

/-- C8: compare_sheets is chunk-size invariant for every positive chunk size,
in both keyed and positional mode: the reports, the column differences and
the row differences are identical, and the value-difference records agree as
a multiset (in keyed mode even as a list; in positional mode the chunked
column-major traversal can reorder the list). -/
theorem C8_chunk_invariance (df1 df2 : Table) (kcs : Option (List String))
    (cs cs2 : Nat) (hcs : 0 < cs) (hcs2 : 0 < cs2) :
    (compare_sheets df1 df2 kcs cs).detailed = (compare_sheets df1 df2 kcs cs2).detailed ∧
    (compare_sheets df1 df2 kcs cs).summary = (compare_sheets df1 df2 kcs cs2).summary ∧
    (compare_sheets df1 df2 kcs cs).errors.column_differences =
      (compare_sheets df1 df2 kcs cs2).errors.column_differences ∧
    (compare_sheets df1 df2 kcs cs).errors.row_differences =
      (compare_sheets df1 df2 kcs cs2).errors.row_differences ∧
    List.Perm (compare_sheets df1 df2 kcs cs).errors.value_differences
      (compare_sheets df1 df2 kcs cs2).errors.value_differences := by
  by_cases h : df1 = df2
  · subst h
    rw [compare_sheets_self, compare_sheets_self]
    exact ⟨rfl, rfl, rfl, rfl, List.Perm.refl _⟩
  · have hperm : List.Perm (posValueDiffs df1 df2 cs) (posValueDiffs df1 df2 cs2) :=
      (posValueDiffs_perm df1 df2 cs hcs).trans (posValueDiffs_perm df1 df2 cs2 hcs2).symm
    have hlen : (posValueDiffs df1 df2 cs).length = (posValueDiffs df1 df2 cs2).length :=
      hperm.length_eq
    have hifs : (if (posValueDiffs df1 df2 cs).isEmpty then ([] : List ReportItem)
        else [.valueDifferences (posValueDiffs df1 df2 cs).length]) =
        (if (posValueDiffs df1 df2 cs2).isEmpty then []
        else [.valueDifferences (posValueDiffs df1 df2 cs2).length]) := by
      by_cases he : posValueDiffs df1 df2 cs = []
      · have he2 : posValueDiffs df1 df2 cs2 = [] := by
          rw [he] at hlen
          exact List.length_eq_zero.mp hlen.symm
        simp [he, he2]
      · have he2 : posValueDiffs df1 df2 cs2 ≠ [] := by
          intro h0
          rw [h0] at hlen
          exact he (List.length_eq_zero.mp hlen)
        simp [he, he2, hlen]
    have hpos : (posSheetResult df1 df2 cs).detailed = (posSheetResult df1 df2 cs2).detailed ∧
        (posSheetResult df1 df2 cs).summary = (posSheetResult df1 df2 cs2).summary ∧
        (posSheetResult df1 df2 cs).errors.column_differences =
          (posSheetResult df1 df2 cs2).errors.column_differences ∧
        (posSheetResult df1 df2 cs).errors.row_differences =
          (posSheetResult df1 df2 cs2).errors.row_differences ∧
        List.Perm (posSheetResult df1 df2 cs).errors.value_differences
          (posSheetResult df1 df2 cs2).errors.value_differences := by
      refine ⟨?_, ?_, rfl, rfl, hperm⟩
      · simp only [posSheetResult]
        rw [hifs]
      · simp only [posSheetResult]
        rw [hifs]
    cases kcs with
    | none =>
      rw [compare_sheets_none _ _ _ h, compare_sheets_none _ _ _ h]
      exact hpos
    | some kc =>
      rw [compare_sheets.eq_def, if_neg h, compare_sheets.eq_def, if_neg h]
      by_cases hkc : kc.isEmpty
      · simp only [hkc, if_true]
        exact hpos
      · by_cases hall : (kc.all (fun c => df1.columns.contains c) &&
            kc.all (fun c => df2.columns.contains c)) = true
        · simp only [hkc, Bool.false_eq_true, if_false, hall, if_true]
          have hk : keyedValueDiffs df1 df2 kc cs = keyedValueDiffs df1 df2 kc cs2 := by
            rw [keyedValueDiffs_eq df1 df2 kc cs hcs,
              keyedValueDiffs_eq df1 df2 kc cs2 hcs2]
          simp only [keyedSheetResult]
          rw [hk]
          exact ⟨by trivial, by trivial, by trivial, by trivial, List.Perm.refl _⟩
        · simp only [hkc, Bool.false_eq_true, if_false, hall]
          exact ⟨by trivial, by trivial, by trivial, by trivial, List.Perm.refl _⟩

/-- C8 witness: chunk sizes 10 and 100000 on a concrete positional pair agree
up to permutation of the value-difference records. -/
theorem C8_witness :
    List.Perm
      (compare_sheets
        ⟨["a", "b"], [[Cell.val "1", Cell.val "2"], [Cell.val "3", Cell.val "4"],
          [Cell.val "5", Cell.val "6"]]⟩
        ⟨["a", "b"], [[Cell.val "1", Cell.val "9"], [Cell.val "8", Cell.val "4"],
          [Cell.val "7", Cell.val "6"]]⟩ none 10).errors.value_differences
      (compare_sheets
        ⟨["a", "b"], [[Cell.val "1", Cell.val "2"], [Cell.val "3", Cell.val "4"],
          [Cell.val "5", Cell.val "6"]]⟩
        ⟨["a", "b"], [[Cell.val "1", Cell.val "9"], [Cell.val "8", Cell.val "4"],
          [Cell.val "7", Cell.val "6"]]⟩ none 100000).errors.value_differences :=
  (C8_chunk_invariance _ _ none 10 100000 (by decide) (by decide)).2.2.2.2

/-- C2 amended: in both modes a cell pair is reported as a value difference
exactly when the normalized strings are unequal (exact string equality, no
tolerance), but the two modes normalize missing values differently: keyed
mode renders a missing cell as "NaN" (the pd.notna guard at comparison.py
lines 267-268), while positional mode uses plain str() / astype(str) and
renders a missing cell as "nan" (lines 321-331). -/
theorem C2_amended_normalization (df1 df2 : Table) (cs : Nat) (hcs : 0 < cs) :
    (∀ d : ValueDiff,
      d ∈ (compare_sheets df1 df2 none cs).errors.value_differences ↔
        ∃ r, r < minRows df1 df2 ∧ ∃ c, c ∈ commonColsList df1 df2 ∧
          strRaw (cellAt df1 r c) ≠ strRaw (cellAt df2 r c) ∧
          d = ⟨.idx r, c, strRaw (cellAt df1 r c), strRaw (cellAt df2 r c)⟩) ∧
    (∀ kc : List String, kc ≠ [] → (∀ c ∈ kc, c ∈ df1.columns) →
      (∀ c ∈ kc, c ∈ df2.columns) → ∀ d : ValueDiff,
      d ∈ (compare_sheets df1 df2 (some kc) cs).errors.value_differences ↔
        ∃ key, key ∈ keyedCommonKeys df1 df2 kc ∧ ∃ c, c ∈ commonColsList df1 df2 ∧
          strNotna (rowGet df1.columns (dictLookup (buildKeyDict df1 kc) key) c) ≠
            strNotna (rowGet df2.columns (dictLookup (buildKeyDict df2 kc) key) c) ∧
          d = ⟨.key (kc.zip key), c,
            strNotna (rowGet df1.columns (dictLookup (buildKeyDict df1 kc) key) c),
            strNotna (rowGet df2.columns (dictLookup (buildKeyDict df2 kc) key) c)⟩) := by
  constructor
  · intro d
    by_cases h : df1 = df2
    · subst h
      rw [compare_sheets_self]
      constructor
      · intro hmem
        exact absurd hmem (List.not_mem_nil d)
      · rintro ⟨r, hr, c, hc, hne, _⟩
        exact absurd rfl hne
    · rw [compare_sheets_none_value_diffs df1 df2 cs h]
      constructor
      · intro hmem
        exact (mem_posCanonicalDiffs df1 df2 d).mp
          ((posValueDiffs_perm df1 df2 cs hcs).mem_iff.mp hmem)
      · intro hex
        exact (posValueDiffs_perm df1 df2 cs hcs).mem_iff.mpr
          ((mem_posCanonicalDiffs df1 df2 d).mpr hex)
  · intro kc hkc h1 h2 d
    by_cases h : df1 = df2
    · subst h
      rw [compare_sheets_self]
      constructor
      · intro hmem
        exact absurd hmem (List.not_mem_nil d)
      · rintro ⟨key, hkey, c, hc, hne, _⟩
        exact absurd rfl hne
    · have hv : (compare_sheets df1 df2 (some kc) cs).errors.value_differences =
          keyedCanonicalDiffs df1 df2 kc := by
        rw [compare_sheets_keyed df1 df2 kc cs h hkc h1 h2]
        exact keyedValueDiffs_eq df1 df2 kc cs hcs
      rw [hv]
      exact mem_keyedCanonicalDiffs df1 df2 kc d

/-- C2 witness: a missing cell against the literal string "NaN" in positional
mode yields a reported difference whose first value is "nan". -/
theorem C2_witness :
    (⟨.idx 0, "c", "nan", "NaN"⟩ : ValueDiff) ∈
      (compare_sheets ⟨["c"], [[Cell.missing]]⟩ ⟨["c"], [[Cell.val "NaN"]]⟩
        none 10000).errors.value_differences :=
  ((C2_amended_normalization ⟨["c"], [[Cell.missing]]⟩ ⟨["c"], [[Cell.val "NaN"]]⟩
      10000 (by decide)).1 ⟨.idx 0, "c", "nan", "NaN"⟩).mpr
    ⟨0, by decide, "c", by decide, by decide, by decide⟩

/-- C7 counterexample: the renderer truncates silently.  On a concrete list of
1,001 value-difference records the renderer's entire output equals its output
on just the first 1,000 records, so no part of the output indicates that
truncation happened, contradicting the claimed explicit truncated
indicator. -/
theorem C7_counterexample :
    highlightValueDiffsCsv ⟨["c"], []⟩ ⟨["c"], []⟩
        ((List.range 1001).map (fun r => ⟨.idx r, "c", "0", "1"⟩)) =
      highlightValueDiffsCsv ⟨["c"], []⟩ ⟨["c"], []⟩
        (((List.range 1001).map (fun r => ⟨.idx r, "c", "0", "1"⟩)).take 1000) ∧
    ((List.range 1001).map (fun r => (⟨.idx r, "c", "0", "1"⟩ : ValueDiff))).length = 1001 ∧
    ((List.range 1001).map (fun r => (⟨.idx r, "c", "0", "1"⟩ : ValueDiff))) ≠
      ((List.range 1001).map (fun r => (⟨.idx r, "c", "0", "1"⟩ : ValueDiff))).take 1000 := by
  have hlen : ((List.range 1001).map
      (fun r => (⟨.idx r, "c", "0", "1"⟩ : ValueDiff))).length = 1001 := by
    simp
  have htr : truncateValueDiffs ((List.range 1001).map
      (fun r => (⟨.idx r, "c", "0", "1"⟩ : ValueDiff))) =
      ((List.range 1001).map (fun r => (⟨.idx r, "c", "0", "1"⟩ : ValueDiff))).take 1000 := by
    unfold truncateValueDiffs
    rw [hlen]
    simp
  have htr2 : truncateValueDiffs (((List.range 1001).map
      (fun r => (⟨.idx r, "c", "0", "1"⟩ : ValueDiff))).take 1000) =
      ((List.range 1001).map (fun r => (⟨.idx r, "c", "0", "1"⟩ : ValueDiff))).take 1000 := by
    unfold truncateValueDiffs
    rw [List.length_take, hlen]
    simp
  refine ⟨?_, hlen, ?_⟩
  · simp only [highlightValueDiffsCsv]
    rw [htr, htr2]
  · intro heq
    have hlen2 := congrArg List.length heq
    rw [hlen, List.length_take, hlen] at hlen2
    simp at hlen2

/-- C7 amended: the 1,000 cap is applied only at presentation time.  The
engine retains every detected value-difference record (the stored list is a
permutation of the full set of cell differences) and both report lists carry
the true total; the renderer truncates the record list to its first 1,000
entries, but silently, with no truncated indicator. -/
theorem C7_amended_presentation_cap (df1 df2 : Table) (cs : Nat) (hcs : 0 < cs)
    (l : List ValueDiff) (hl : 1000 < l.length) :
    List.Perm (compare_sheets df1 df2 none cs).errors.value_differences
      (posCanonicalDiffs df1 df2) ∧
    (compare_sheets df1 df2 none cs).errors.value_differences.length =
      (posCanonicalDiffs df1 df2).length ∧
    (posCanonicalDiffs df1 df2 ≠ [] →
      ReportItem.valueDifferences (posCanonicalDiffs df1 df2).length ∈
        (compare_sheets df1 df2 none cs).detailed ∧
      ReportItem.valueDifferences (posCanonicalDiffs df1 df2).length ∈
        (compare_sheets df1 df2 none cs).summary) ∧
    (∀ kc : List String, kc ≠ [] → (∀ c ∈ kc, c ∈ df1.columns) →
      (∀ c ∈ kc, c ∈ df2.columns) →
      (compare_sheets df1 df2 (some kc) cs).errors.value_differences =
        keyedCanonicalDiffs df1 df2 kc ∧
      (keyedCanonicalDiffs df1 df2 kc ≠ [] →
        ReportItem.valueDifferences (keyedCanonicalDiffs df1 df2 kc).length ∈
          (compare_sheets df1 df2 (some kc) cs).detailed ∧
        ReportItem.valueDifferences (keyedCanonicalDiffs df1 df2 kc).length ∈
          (compare_sheets df1 df2 (some kc) cs).summary)) ∧
    truncateValueDiffs l = l.take 1000 := by
  have hperm : List.Perm (compare_sheets df1 df2 none cs).errors.value_differences
      (posCanonicalDiffs df1 df2) := by
    by_cases h : df1 = df2
    · subst h
      rw [compare_sheets_self, posCanonicalDiffs_self]
      exact List.Perm.refl _
    · rw [compare_sheets_none_value_diffs df1 df2 cs h]
      exact posValueDiffs_perm df1 df2 cs hcs
  refine ⟨hperm, hperm.length_eq, ?_, ?_, ?_⟩
  · intro hne
    by_cases h : df1 = df2
    · exfalso
      apply hne
      subst h
      exact posCanonicalDiffs_self df1
    · have hlen2 : (posValueDiffs df1 df2 cs).length =
          (posCanonicalDiffs df1 df2).length :=
        (posValueDiffs_perm df1 df2 cs hcs).length_eq
      have hne2 : (posValueDiffs df1 df2 cs).isEmpty = false := by
        rw [List.isEmpty_eq_false]
        intro h0
        apply hne
        have h3 : (posCanonicalDiffs df1 df2).length = 0 := by
          rw [← hlen2, h0]
          rfl
        exact List.length_eq_zero.mp h3
      rw [compare_sheets_none _ _ _ h]
      constructor
      · rw [← hlen2]
        simp [posSheetResult, hne2]
      · rw [← hlen2]
        simp [posSheetResult, hne2]
  · intro kc hkc h1 h2
    by_cases h : df1 = df2
    · subst h
      rw [compare_sheets_self]
      refine ⟨?_, ?_⟩
      · rw [keyedCanonicalDiffs_self]
        rfl
      · intro hne
        exact absurd (keyedCanonicalDiffs_self df1 kc) hne
    · have hd : keyedValueDiffs df1 df2 kc cs = keyedCanonicalDiffs df1 df2 kc :=
        keyedValueDiffs_eq df1 df2 kc cs hcs
      have hv : (compare_sheets df1 df2 (some kc) cs).errors.value_differences =
          keyedCanonicalDiffs df1 df2 kc := by
        rw [compare_sheets_keyed df1 df2 kc cs h hkc h1 h2]
        exact hd
      refine ⟨hv, ?_⟩
      intro hne
      have hne2 : (keyedValueDiffs df1 df2 kc cs).isEmpty = false := by
        rw [List.isEmpty_eq_false, hd]
        exact hne
      rw [compare_sheets_keyed df1 df2 kc cs h hkc h1 h2]
      constructor
      · rw [← hd]
        simp [keyedSheetResult, hne2]
      · rw [← hd]
        simp [keyedSheetResult, hne2]
  · unfold truncateValueDiffs
    rw [if_pos hl]

/-- C7 witness: a concrete positional pair with one difference, and a concrete
1,001-record list truncated by the renderer to its first 1,000 entries. -/
theorem C7_witness :
    List.Perm (compare_sheets ⟨["c"], [[Cell.val "1"]]⟩ ⟨["c"], [[Cell.val "2"]]⟩
        none 10000).errors.value_differences
      (posCanonicalDiffs ⟨["c"], [[Cell.val "1"]]⟩ ⟨["c"], [[Cell.val "2"]]⟩) ∧
    truncateValueDiffs ((List.range 1001).map (fun r => ⟨.idx r, "c", "0", "1"⟩)) =
      ((List.range 1001).map (fun r => (⟨.idx r, "c", "0", "1"⟩ : ValueDiff))).take 1000 :=
  ⟨(C7_amended_presentation_cap ⟨["c"], [[Cell.val "1"]]⟩ ⟨["c"], [[Cell.val "2"]]⟩
      10000 (by decide) ((List.range 1001).map (fun r => ⟨.idx r, "c", "0", "1"⟩))
      (by simp)).1,
   (C7_amended_presentation_cap ⟨["c"], [[Cell.val "1"]]⟩ ⟨["c"], [[Cell.val "2"]]⟩
      10000 (by decide) ((List.range 1001).map (fun r => ⟨.idx r, "c", "0", "1"⟩))
      (by simp)).2.2.2.2⟩
